import Mathlib

/-!
Verification of the matscipy fracture-mechanics core: the cubic stiffness
rotation (matscipy/elasticity.py, class CubicElasticModuli) and the
anisotropic crack-tip field model and tip-fitting helpers
(matscipy/fracture_mechanics/crack.py).

Numeric conventions of the embedding: Python/numpy floating point values are
modelled by exact rationals where the source computes field operations, and
by real numbers where the source takes square roots.  numpy float and
complex division by zero produces non-finite junk values (with a runtime
warning) instead of raising; this junk is modelled by the Lean convention
that division by zero yields zero.
-/

namespace Matscipy

/-- Complex numbers with exact rational components, modelling the numpy
complex values used by RectilinearAnisotropicCrack. -/
structure QC where
  re : ℚ
  im : ℚ
deriving DecidableEq, Repr

instance : Zero QC := ⟨⟨0, 0⟩⟩

instance : One QC := ⟨⟨1, 0⟩⟩

instance : Add QC := ⟨fun z w => ⟨z.re + w.re, z.im + w.im⟩⟩

instance : Neg QC := ⟨fun z => ⟨-z.re, -z.im⟩⟩

instance : Sub QC := ⟨fun z w => ⟨z.re - w.re, z.im - w.im⟩⟩

instance : Mul QC := ⟨fun z w => ⟨z.re * w.re - z.im * w.im, z.re * w.im + z.im * w.re⟩⟩

/-- Complex conjugate, mirroring the Python method conjugate(). -/
def QC.conj (z : QC) : QC := ⟨z.re, -z.im⟩

def QC.normSq (z : QC) : ℚ := z.re * z.re + z.im * z.im

/-- Complex division.  Division by zero yields the junk value zero, standing
for the non-finite junk numpy produces instead of raising. -/
instance : Div QC :=
  ⟨fun z w => ⟨(z.re * w.re + z.im * w.im) / QC.normSq w,
               (z.im * w.re - z.re * w.im) / QC.normSq w⟩⟩

/-- Embed a rational as a complex number. -/
def QC.ofRat (q : ℚ) : QC := ⟨q, 0⟩

/-- The six reduced compliance-like coefficients held by
RectilinearAnisotropicCrack (crack.py lines 50-56). -/
structure CrackCfg where
  a11 : ℚ
  a22 : ℚ
  a12 : ℚ
  a16 : ℚ
  a26 : ℚ
  a66 : ℚ
deriving DecidableEq, Repr

/-- Coefficient list of the characteristic quartic handed to numpy poly1d in
init_crack (crack.py lines 86-87): a11, -2 a16, 2 a12 + a66, -2 a26, a22. -/
def crack_poly_coeffs (c : CrackCfg) : List ℚ :=
  [c.a11, -2 * c.a16, 2 * c.a12 + c.a66, -2 * c.a26, c.a22]

/-- The state of a configured RectilinearAnisotropicCrack: the reduction
coefficients together with the selected roots mu1, mu2 and the derived
field parameters (crack.py lines 97-110). -/
structure CrackState where
  a11 : ℚ
  a22 : ℚ
  a12 : ℚ
  a16 : ℚ
  a26 : ℚ
  a66 : ℚ
  mu1 : QC
  mu2 : QC
  p1 : QC
  p2 : QC
  q1 : QC
  q2 : QC
  h1 : QC
  h2 : QC
  h3 : QC
  h4 : QC
  h5 : QC
deriving DecidableEq, Repr

/-- RectilinearAnisotropicCrack._init_crack (crack.py lines 82-110).  The
four roots of the characteristic quartic are produced by the external numpy
root finder, so they enter here as inputs, in the order numpy returned them.
The code requires root 1 to equal the conjugate of root 2 and root 3 to
equal the conjugate of root 4, raising RuntimeError otherwise, then selects
mu1 as root 1 and mu2 as root 3 and derives the field parameters. -/
def init_crack (c : CrackCfg) (r1 r2 r3 r4 : QC) : Except String CrackState :=
  if r1 ≠ QC.conj r2 then .error "Roots not in pairs."
  else if r3 ≠ QC.conj r4 then .error "Roots not in pairs."
  else
    let mu1 := r1
    let mu2 := r3
    let p1 := QC.ofRat c.a11 * (mu1 * mu1) + QC.ofRat c.a12 - QC.ofRat c.a16 * mu1
    let p2 := QC.ofRat c.a11 * (mu2 * mu2) + QC.ofRat c.a12 - QC.ofRat c.a16 * mu2
    let q1 := QC.ofRat c.a12 * mu1 + QC.ofRat c.a22 / mu1 - QC.ofRat c.a26
    let q2 := QC.ofRat c.a12 * mu2 + QC.ofRat c.a22 / mu2 - QC.ofRat c.a26
    .ok { a11 := c.a11, a22 := c.a22, a12 := c.a12,
          a16 := c.a16, a26 := c.a26, a66 := c.a66,
          mu1 := mu1, mu2 := mu2, p1 := p1, p2 := p2, q1 := q1, q2 := q2,
          h1 := (1 : QC) / (mu1 - mu2),
          h2 := mu1 * p2, h3 := mu2 * p1,
          h4 := mu1 * q2, h5 := mu2 * q1 }

/-- RectilinearAnisotropicCrack.set_plane_stress (crack.py lines 59-67):
stores the six coefficients and configures the crack. -/
def set_plane_stress (a11 a22 a12 a16 a26 a66 : ℚ) (r1 r2 r3 r4 : QC) :
    Except String CrackState :=
  init_crack ⟨a11, a22, a12, a16, a26, a66⟩ r1 r2 r3 r4

/-- The radicand of RectilinearAnisotropicCrack.k1g (crack.py lines 164-166):
-4 gamma / (a22 * Im[(mu1 + mu2) / (mu1 mu2)]). -/
def k1g_radicand (st : CrackState) (gamma : ℚ) : ℚ :=
  -4 * gamma / (st.a22 * ((st.mu1 + st.mu2) / (st.mu1 * st.mu2)).im)

/-- RectilinearAnisotropicCrack.k1g (crack.py lines 159-166): Python
math.sqrt raises ValueError on a negative argument. -/
noncomputable def k1g (st : CrackState) (gamma : ℚ) : Except String ℝ :=
  if k1g_radicand st gamma < 0 then .error "ValueError: math domain error"
  else .ok (Real.sqrt (k1g_radicand st gamma))

/-! Cubic elastic moduli (matscipy/elasticity.py, class CubicElasticModuli). -/

/-- The three independent elastic constants of a cubic material
(elasticity.py lines 34-45). -/
structure CEM (K : Type) where
  C11 : K
  C12 : K
  C44 : K

variable {K : Type} [LinearOrderedField K]

/-- la = C12 (elasticity.py line 43). -/
def CEM.la (m : CEM K) : K := m.C12

/-- mu = C44 (elasticity.py line 44). -/
def CEM.mu (m : CEM K) : K := m.C44

/-- al = C11 - la - 2 mu, the cubic anisotropy (elasticity.py line 45). -/
def CEM.al (m : CEM K) : K := m.C11 - m.la - 2 * m.mu

abbrev Mat3 (K : Type) := Fin 3 → Fin 3 → K

/-- The matrix product A Aᵀ tested by the orthonormality check. -/
def matMulT (A : Mat3 K) : Mat3 K := fun i j => ∑ a : Fin 3, A i a * A j a

/-- The identity matrix np.eye(3). -/
def idMat3 : Mat3 K := fun i j => if i = j then 1 else 0

/-- The orthonormality acceptance check of rotate (elasticity.py lines
61-63): every entry of |A Aᵀ - I| must be at most tol = 1e-6, otherwise
RuntimeError is raised. -/
def rotationOK (A : Mat3 K) : Prop :=
  ∀ i j, |matMulT A i j - idMat3 i j| ≤ 1 / 1000000

instance (A : Mat3 K) : Decidable (rotationOK A) := by
  unfold rotationOK; infer_instance

/-- One slot of the closed-form rotation (elasticity.py lines 66-75):
h = la [i=j][k=m] + mu [i=k][j=m] + mu [i=m][j=k] + al sum_a A_ia A_ja A_ka A_ma. -/
def rotSlot (m : CEM K) (A : Mat3 K) (i j k l : Fin 3) : K :=
  (if i = j ∧ k = l then m.la else 0) + (if i = k ∧ j = l then m.mu else 0) +
    (if i = l ∧ j = k then m.mu else 0) +
    m.al * ∑ a : Fin 3, A i a * A j a * A k a * A l a

/-- CubicElasticModuli.rotate (elasticity.py lines 53-81): checks the
orthonormality of A, then evaluates the closed form on the nine index
tuples of the list t, returning (C11_rot, C12_rot, C44_rot). -/
def rotate (m : CEM K) (A : Mat3 K) :
    Except String ((K × K × K) × (K × K × K) × (K × K × K)) :=
  if rotationOK A then
    .ok ((rotSlot m A 0 0 0 0, rotSlot m A 1 1 1 1, rotSlot m A 2 2 2 2),
         (rotSlot m A 1 1 2 2, rotSlot m A 0 0 2 2, rotSlot m A 0 0 1 1),
         (rotSlot m A 1 2 1 2, rotSlot m A 0 2 0 2, rotSlot m A 0 1 0 1))
  else .error "Matrix *A* does not describe a rotation."

/-- The unrotated fourth-rank stiffness tensor built by _rotate_explicit
(elasticity.py lines 100-113). -/
def cubicTensor (m : CEM K) (a b c d : Fin 3) : K :=
  (if a = b ∧ c = d then m.la else 0) + (if a = c ∧ b = d then m.mu else 0) +
    (if a = d ∧ b = c then m.mu else 0) +
    (if a = b ∧ b = c ∧ c = d then m.al else 0)

/-- One slot of the brute-force rotation (elasticity.py line 116), the
einsum contraction C_rot[i,j,k,m] = sum A_ia A_jb A_kc A_md C[a,b,c,d]. -/
def explicitSlot (m : CEM K) (A : Mat3 K) (i j k l : Fin 3) : K :=
  ∑ a : Fin 3, ∑ b : Fin 3, ∑ c : Fin 3, ∑ d : Fin 3,
    A i a * A j b * A k c * A l d * cubicTensor m a b c d

/-- CubicElasticModuli._rotate_explicit (elasticity.py lines 84-126): same
orthonormality check, then the full 4-index contraction evaluated on the
nine index tuples of the list t. -/
def rotate_explicit (m : CEM K) (A : Mat3 K) :
    Except String ((K × K × K) × (K × K × K) × (K × K × K)) :=
  if rotationOK A then
    .ok ((explicitSlot m A 0 0 0 0, explicitSlot m A 1 1 1 1, explicitSlot m A 2 2 2 2),
         (explicitSlot m A 1 1 2 2, explicitSlot m A 0 0 2 2, explicitSlot m A 0 0 1 1),
         (explicitSlot m A 1 2 1 2, explicitSlot m A 0 2 0 2, explicitSlot m A 0 1 0 1))
  else .error "Matrix *A* does not describe a rotation."

/-- CubicElasticModuli.compliance (elasticity.py lines 159-164): the body is
a bare raise NotImplementedError. -/
def compliance : Except String Unit := .error "NotImplementedError"

/-- A diagonal matrix whose rows have squared norm (1 + 4e-7)^2, inside the
1e-6 acceptance tolerance of the orthonormality check yet not exactly
orthogonal. -/
def nearRotation : Mat3 ℚ := fun i j => if i = j then 2500001 / 2500000 else 0

/-- The cubic elastic constants C11 = 166, C12 = 65, C44 = 77 (the silicon
values, in GPa, quoted by the specification). -/
def exampleCEM : CEM ℚ := ⟨166, 65, 77⟩

/-- The cartesian basis vector (1,0,0). -/
def e0v : Fin 3 → ℝ := fun i => if i = 0 then 1 else 0

/-- The cartesian basis vector (0,1,0). -/
def e1v : Fin 3 → ℝ := fun i => if i = 1 then 1 else 0

/-- The cartesian basis vector (0,0,1). -/
def e2v : Fin 3 → ℝ := fun i => if i = 2 then 1 else 0

/-! CubicCrystalCrack (crack.py lines 174-217).  The constructor assembles
the crack coordinate frame, rotates the stiffness and then requests the
compliance matrix.  Vector normalisation takes real square roots, so this
part of the embedding lives over the real numbers. -/

/-- Cross product np.cross of two 3-vectors. -/
def cross3 (u v : Fin 3 → K) : Fin 3 → K :=
  ![u 1 * v 2 - u 2 * v 1, u 2 * v 0 - u 0 * v 2, u 0 * v 1 - u 1 * v 0]

/-- A 3x3 matrix from its three rows, np.array([r0, r1, r2]). -/
def rows3 (r0 r1 r2 : Fin 3 → K) : Mat3 K := ![r0, r1, r2]

/-- Determinant of a 3x3 matrix, np.linalg.det. -/
def det3 (A : Mat3 K) : K :=
  A 0 0 * (A 1 1 * A 2 2 - A 1 2 * A 2 1) -
    A 0 1 * (A 1 0 * A 2 2 - A 1 2 * A 2 0) +
    A 0 2 * (A 1 0 * A 2 1 - A 1 1 * A 2 0)

/-- v / np.sqrt(np.dot(v, v)) (crack.py lines 192-197). -/
noncomputable def normalize3 (v : Fin 3 → ℝ) : Fin 3 → ℝ :=
  fun i => v i / Real.sqrt (v 0 * v 0 + v 1 * v 1 + v 2 * v 2)

/-- Assembly of the crack coordinate frame (crack.py lines 191-202):
third_dir = crack_surface x crack_front, all three directions normalised,
rows stacked as [third_dir, crack_surface, crack_front]; if the determinant
is negative, third_dir is flipped. -/
noncomputable def crackFrame (surface front : Fin 3 → ℝ) : Mat3 ℝ :=
  let third := normalize3 (cross3 surface front)
  let surfaceN := normalize3 surface
  let frontN := normalize3 front
  let A := rows3 third surfaceN frontN
  let third2 := if det3 A < 0 then (fun i => -(third i)) else third
  rows3 third2 surfaceN frontN

set_option linter.unusedVariables false in
/-- CubicCrystalCrack.__init__ (crack.py lines 179-217): builds the frame,
calls self.E.rotate(A) (which may raise RuntimeError), then requests
S6 = self.E.compliance().  compliance always raises NotImplementedError, so
the set_plane_stress / set_plane_strain dispatch on stress_state that
follows is unreachable and the constructor never completes. -/
noncomputable def cubicCrystalCrackNew (C11 C12 C44 : ℝ)
    (surface front : Fin 3 → ℝ) (stressState : String) : Except String Unit :=
  (rotate ⟨C11, C12, C44⟩ (crackFrame surface front)).bind fun _ =>
    compliance.bind fun _ =>
      -- unreachable: would dispatch on stressState to set_plane_stress or
      -- set_plane_strain using the compliance matrix
      .ok ()


/-! The tip-fitting engine, fit_crack_stress_field and
CubicCrystalCrack.crack_tip_position (crack.py). -/

/-- Distance of atom i from the tip estimate (crack.py line 785):
r = np.sqrt((x - x0)**2 + (y - y0)**2). -/
noncomputable def fit_r (x y : Nat → ℝ) (x0 y0 : ℝ) : Nat → ℝ :=
  fun i => Real.sqrt ((x i - x0) ^ 2 + (y i - y0) ^ 2)

/-- The annulus mask of fit_crack_stress_field (crack.py lines 805-808):
with r_range = (rmin, rmax) an atom is kept when (r > rmin) & (r < rmax);
with r_range = None the mask is Ellipsis, keeping every atom.  The fit
residual (lines 813-819) is the difference of stresses restricted to this
mask. -/
def fit_mask (rRange : Option (ℝ × ℝ)) (r : Nat → ℝ) : Nat → Prop :=
  match rRange with
  | none => fun _ => True
  | some (rmin, rmax) => fun i => rmin < r i ∧ r i < rmax

/-- CubicCrystalCrack.crack_tip_position, tail after the external leastsq
call (crack.py lines 336-340).  leastsq is an external solver; its output,
the refined position together with the integer status ier, enters here as
input.  The code raises RuntimeError unless ier is one of 1, 2, 3, 4. -/
def crack_tip_position (solverOut : (ℚ × ℚ) × ℤ) : Except String (ℚ × ℚ) :=
  let ((x0, y0), ier) := solverOut
  if ier ∉ ([1, 2, 3, 4] : List ℤ) then .error "Could not find crack tip"
  else .ok (x0, y0)

set_option linter.unusedVariables false in
/-- fit_crack_stress_field, tail after the external leastsq call (crack.py
lines 826-854).  leastsq with full_output=True returns the fitted parameter
vector and the integer status flag success; the code binds success but
never examines it and returns the fitted parameters unconditionally. -/
def fit_leastsq_tail (fitted : List ℚ) (success : ℤ) : Except String (List ℚ) :=
  .ok fitted

/-- CubicCrystalCrack.scale_displacements (crack.py lines 386-414), applied
entrywise over the position arrays:
ref + new_k / old_k * (pos - ref). -/
def scale_displacements (x y refx refy : Nat → ℚ) (oldK newK : ℚ) :
    (Nat → ℚ) × (Nat → ℚ) :=
  (fun i => refx i + newK / oldK * (x i - refx i),
   fun i => refy i + newK / oldK * (y i - refy i))

/-! Strain bookkeeping for the thin-strip geometry (crack.py lines 564-659). -/

/-- The slice of the atoms object consumed by the strain bookkeeping chain:
the OrigHeight, YoungsModulus and PoissonRatio_yx entries of atoms.info and
the y column of atoms.positions. -/
structure ThinStrip where
  origHeight : ℚ
  youngsModulus : ℚ
  nu : ℚ
  ypos : List ℚ
deriving DecidableEq, Repr

/-- np.max over a nonempty array; 0 on the empty array. -/
def arr_max : List ℚ → ℚ
  | [] => 0
  | v :: vs => vs.foldl max v

/-- np.min over a nonempty array; 0 on the empty array. -/
def arr_min : List ℚ → ℚ
  | [] => 0
  | v :: vs => vs.foldl min v

/-- get_strain (crack.py lines 611-625): current_height is the spread of
the y positions and strain = current_height / orig_height - 1. -/
def get_strain (a : ThinStrip) : ℚ :=
  (arr_max a.ypos - arr_min a.ypos) / a.origHeight - 1

/-- strain_to_G (crack.py lines 564-585):
G = 0.5 * E / (1 - nu * nu) * strain * strain * orig_height. -/
def strain_to_G (strain E nu origHeight : ℚ) : ℚ :=
  (1 / 2) * E / (1 - nu * nu) * strain * strain * origHeight

/-- get_energy_release_rate (crack.py lines 628-641). -/
def get_energy_release_rate (a : ThinStrip) : ℚ :=
  strain_to_G (get_strain a) a.youngsModulus a.nu a.origHeight

/-- get_stress_intensity_factor (crack.py lines 644-659).  Line 657
evaluates K = sqrt(G*Ep), but the bare name sqrt is not defined anywhere in
the module (only the math module is imported, never from math import sqrt),
so Python raises NameError before any value is produced. -/
def get_stress_intensity_factor (a : ThinStrip) : Except String ℚ :=
  let _G := get_energy_release_rate a
  let _Ep := a.youngsModulus / (1 - a.nu ^ 2)
  .error "NameError: name sqrt is not defined"

/-! The stress-array bookkeeping at the head of fit_crack_stress_field
(crack.py lines 788-803). -/

/-- A per-atom array of 3x3 stress tensors. -/
abbrev StressArr := Nat → Fin 3 → Fin 3 → ℚ

/-- The five assignments of crack.py lines 798-803, zeroing the out-of-plane
stress components (2,2), (0,2), (2,0), (1,2), (2,1) of every atom. -/
def zero_out_of_plane (s : StressArr) : StressArr := fun i a b =>
  if (a = 2 ∧ b = 2) ∨ (a = 0 ∧ b = 2) ∨ (a = 2 ∧ b = 0) ∨
      (a = 1 ∧ b = 2) ∨ (a = 2 ∧ b = 1) then 0
  else s i a b

/-- The sigma / avg_sigma bookkeeping of fit_crack_stress_field (crack.py
lines 788-803), with numpy array mutation made explicit by state passing.
Inputs: the caller arrays sigma and avg_sigma (when supplied) and the
stresses the calculator would return.  The weight w stands for the value
np.exp(-avg_decay) computed by the external numpy library.  Output: the
caller arrays as the function leaves them, and the local working array used
by the subsequent fit.  When avg_sigma is supplied it is overwritten in
place with the exponential average and the local sigma is rebound to a copy
of it, so only the copy is zeroed; otherwise the zeroing writes through to
the array the local sigma still references, the caller array when one was
supplied. -/
def fit_sigma_prep (w : ℚ) (sigmaArg avgArg : Option StressArr)
    (calcStresses : StressArr) :
    Option StressArr × Option StressArr × StressArr :=
  let sigma := match sigmaArg with
    | none => calcStresses
    | some s => s
  match avgArg with
  | some avg =>
      let avgNew : StressArr := fun i a b => w * avg i a b + (1 - w) * sigma i a b
      (sigmaArg, some avgNew, zero_out_of_plane avgNew)
  | none =>
      (sigmaArg.map fun _ => zero_out_of_plane sigma, none, zero_out_of_plane sigma)

/-! Theorems settling the claims.  First, computation lemmas for the
rational complex numbers. -/

@[simp] theorem QC.mk_add_mk (a b c d : ℚ) : (⟨a, b⟩ + ⟨c, d⟩ : QC) = ⟨a + c, b + d⟩ := rfl

@[simp] theorem QC.mk_sub_mk (a b c d : ℚ) : (⟨a, b⟩ - ⟨c, d⟩ : QC) = ⟨a - c, b - d⟩ := rfl

@[simp] theorem QC.neg_mk (a b : ℚ) : (-(⟨a, b⟩ : QC)) = ⟨-a, -b⟩ := rfl

@[simp] theorem QC.mk_mul_mk (a b c d : ℚ) :
    (⟨a, b⟩ * ⟨c, d⟩ : QC) = ⟨a * c - b * d, a * d + b * c⟩ := rfl

@[simp] theorem QC.mk_div_mk (a b c d : ℚ) :
    (⟨a, b⟩ / ⟨c, d⟩ : QC) =
      ⟨(a * c + b * d) / (c * c + d * d), (b * c - a * d) / (c * c + d * d)⟩ := rfl

@[simp] theorem QC.conj_mk (a b : ℚ) : QC.conj ⟨a, b⟩ = ⟨a, -b⟩ := rfl

@[simp] theorem QC.ofRat_eq (q : ℚ) : QC.ofRat q = ⟨q, 0⟩ := rfl

@[simp] theorem QC.one_eq : (1 : QC) = ⟨1, 0⟩ := rfl

/-- C4: configuring RectilinearAnisotropicCrack succeeds exactly when the
four roots of the characteristic quartic, as returned by the root finder,
form two complex-conjugate pairs (root 1 with root 2 and root 3 with
root 4); one root of each pair is selected, mu1 = root 1 and mu2 = root 3.
If the pairing does not hold, the fatal error "Roots not in pairs." is
raised. -/
theorem c4_roots_in_conjugate_pairs (c : CrackCfg) (r1 r2 r3 r4 : QC) :
    ((r1 = QC.conj r2 ∧ r3 = QC.conj r4) →
      ∃ st, init_crack c r1 r2 r3 r4 = .ok st ∧ st.mu1 = r1 ∧ st.mu2 = r3) ∧
    (¬(r1 = QC.conj r2 ∧ r3 = QC.conj r4) →
      init_crack c r1 r2 r3 r4 = .error "Roots not in pairs.") := by
  constructor
  · rintro ⟨h1, h2⟩
    unfold init_crack
    rw [if_neg (not_ne_iff.mpr h1), if_neg (not_ne_iff.mpr h2)]
    exact ⟨_, rfl, rfl, rfl⟩
  · intro h
    unfold init_crack
    by_cases h1 : r1 = QC.conj r2
    · rw [if_neg (not_ne_iff.mpr h1), if_pos (fun hh => h ⟨h1, hh⟩)]
    · rw [if_pos h1]

/-- Witness for C4 at the quartic mu^4 + 5 mu^2 + 4 with conjugate-paired
roots i, -i, 2i, -2i: configuration succeeds and selects mu1 = i and
mu2 = 2i. -/
theorem c4_roots_in_conjugate_pairs_witness :
    ∃ st, init_crack ⟨1, 4, 0, 0, 0, 5⟩ ⟨0, 1⟩ ⟨0, -1⟩ ⟨0, 2⟩ ⟨0, -2⟩ = .ok st ∧
      st.mu1 = ⟨0, 1⟩ ∧ st.mu2 = ⟨0, 2⟩ :=
  (c4_roots_in_conjugate_pairs ⟨1, 4, 0, 0, 0, 5⟩ ⟨0, 1⟩ ⟨0, -1⟩ ⟨0, 2⟩ ⟨0, -2⟩).1
    (by constructor <;> simp)

/-- C5: for a crack configured through set_plane_stress, the k1g radicand
equals -4 gamma / (a22 * Im[(mu1 + mu2) / (mu1 mu2)]) with mu1, mu2 the
selected roots r1, r3, and k1g(gamma) returns the real square root of that
radicand when it is non-negative while raising ValueError when it is
negative.  The unused hypothesis records that the denominator is nonzero,
excluding the corner where numpy float semantics would produce an infinite
radicand instead of the junk value of the exact embedding. -/
theorem c5_k1g_griffith (a11 a22 a12 a16 a26 a66 gamma : ℚ) (r1 r2 r3 r4 : QC)
    (st : CrackState)
    (hcfg : set_plane_stress a11 a22 a12 a16 a26 a66 r1 r2 r3 r4 = .ok st)
    (_hdenom : a22 * ((r1 + r3) / (r1 * r3) : QC).im ≠ 0) :
    k1g_radicand st gamma = -4 * gamma / (a22 * ((r1 + r3) / (r1 * r3) : QC).im) ∧
    (0 ≤ k1g_radicand st gamma →
      k1g st gamma = .ok (Real.sqrt (k1g_radicand st gamma))) ∧
    (k1g_radicand st gamma < 0 →
      k1g st gamma = .error "ValueError: math domain error") := by
  unfold set_plane_stress init_crack at hcfg
  by_cases h1 : r1 = QC.conj r2
  · by_cases h2 : r3 = QC.conj r4
    · rw [if_neg (not_ne_iff.mpr h1), if_neg (not_ne_iff.mpr h2)] at hcfg
      injection hcfg with hst
      subst hst
      refine ⟨rfl, fun h => ?_, fun h => ?_⟩
      · unfold k1g
        rw [if_neg (not_lt.mpr h)]
      · unfold k1g
        rw [if_pos h]
    · rw [if_neg (not_ne_iff.mpr h1), if_pos h2] at hcfg
      simp at hcfg
  · rw [if_pos h1] at hcfg
    simp at hcfg

/-- Witness for C5 at the configuration with roots i, -i, 2i, -2i and
surface energy gamma = 3: the radicand evaluates to 2 and k1g returns its
square root. -/
theorem c5_k1g_griffith_witness :
    ∃ st, set_plane_stress 1 4 0 0 0 5 ⟨0, 1⟩ ⟨0, -1⟩ ⟨0, 2⟩ ⟨0, -2⟩ = .ok st ∧
      k1g st 3 = .ok (Real.sqrt 2) := by
  have hcfg : set_plane_stress 1 4 0 0 0 5 ⟨0, 1⟩ ⟨0, -1⟩ ⟨0, 2⟩ ⟨0, -2⟩ =
      .ok ⟨1, 4, 0, 0, 0, 5, ⟨0, 1⟩, ⟨0, 2⟩, ⟨-1, 0⟩, ⟨-4, 0⟩, ⟨0, -4⟩, ⟨0, -2⟩,
        ⟨0, 1⟩, ⟨0, -4⟩, ⟨0, -2⟩, ⟨2, 0⟩, ⟨8, 0⟩⟩ := by
    unfold set_plane_stress init_crack
    rw [if_neg (by simp), if_neg (by simp)]
    simp
    norm_num
  have h := c5_k1g_griffith 1 4 0 0 0 5 3 ⟨0, 1⟩ ⟨0, -1⟩ ⟨0, 2⟩ ⟨0, -2⟩ _ hcfg
    (by simp; norm_num)
  have hrad : k1g_radicand ⟨1, 4, 0, 0, 0, 5, ⟨0, 1⟩, ⟨0, 2⟩, ⟨-1, 0⟩, ⟨-4, 0⟩,
      ⟨0, -4⟩, ⟨0, -2⟩, ⟨0, 1⟩, ⟨0, -4⟩, ⟨0, -2⟩, ⟨2, 0⟩, ⟨8, 0⟩⟩ 3 = 2 := by
    rw [h.1]; simp; norm_num
  refine ⟨_, hcfg, by rw [h.2.1 (by rw [hrad]; norm_num), hrad]; norm_num⟩

/-- The identity matrix passes the orthonormality acceptance check. -/
theorem rotationOK_idMat3 : rotationOK (idMat3 (K := ℚ)) := by
  intro i j
  fin_cases i <;> fin_cases j <;>
    norm_num [matMulT, idMat3, Fin.sum_univ_three, abs_le]

/-- C7: rotating by the 3x3 identity matrix returns the unrotated constants
exactly: every entry of C11_rot is C11, every entry of C12_rot is C12 and
every entry of C44_rot is C44. -/
theorem c7_rotate_identity (m : CEM ℚ) :
    rotate m idMat3 =
      .ok ((m.C11, m.C11, m.C11), (m.C12, m.C12, m.C12),
           (m.C44, m.C44, m.C44)) := by
  unfold rotate
  rw [if_pos rotationOK_idMat3]
  simp only [Except.ok.injEq, Prod.mk.injEq]
  refine ⟨⟨?_, ?_, ?_⟩, ⟨?_, ?_, ?_⟩, ?_, ?_, ?_⟩ <;>
    (simp [rotSlot, idMat3, Fin.sum_univ_three, CEM.la, CEM.mu, CEM.al]; try ring)

/-- C6 counterexample: the claim quantifies over every matrix accepted by
the orthonormality check.  The diagonal matrix (1 + 4e-7) I is accepted,
yet for the elastic constants (166, 65, 77) the first entry of C11_rot
computed by the brute-force contraction exceeds the closed-form value by
more than 1e-6, so the two paths do not agree to within 1e-6 there. -/
theorem c6_rotation_consistency_cex :
    rotationOK nearRotation ∧
    explicitSlot exampleCEM nearRotation 0 0 0 0 -
        rotSlot exampleCEM nearRotation 0 0 0 0 > 1 / 1000000 := by
  constructor
  · intro i j
    fin_cases i <;> fin_cases j <;>
      (simp [matMulT, idMat3, nearRotation, Fin.sum_univ_three, abs_le] <;> norm_num)
  · simp [rotSlot, explicitSlot, cubicTensor, nearRotation, exampleCEM,
      Fin.sum_univ_three, CEM.la, CEM.mu, CEM.al]
    norm_num

set_option maxHeartbeats 2000000 in
/-- C6, amended: for an exactly orthonormal matrix A (A Aᵀ = I) the
closed-form rotate and the brute-force rotate_explicit return identical
rotated engineering constants, in particular agreeing to within 1e-6 in
every entry; matrices merely inside the 1e-6 acceptance tolerance of the
check need not satisfy the 1e-6 agreement. -/
theorem c6_rotate_explicit_agree (m : CEM ℚ) (A : Mat3 ℚ)
    (h : matMulT A = idMat3) : rotate m A = rotate_explicit m A := by
  have hOK : rotationOK A := by
    intro i j
    rw [show matMulT A i j = idMat3 i j from congrFun (congrFun h i) j]
    norm_num
  have h00 := congrFun (congrFun h 0) 0
  have h01 := congrFun (congrFun h 0) 1
  have h02 := congrFun (congrFun h 0) 2
  have h10 := congrFun (congrFun h 1) 0
  have h11 := congrFun (congrFun h 1) 1
  have h12 := congrFun (congrFun h 1) 2
  have h20 := congrFun (congrFun h 2) 0
  have h21 := congrFun (congrFun h 2) 1
  have h22 := congrFun (congrFun h 2) 2
  simp [matMulT, idMat3, Fin.sum_univ_three] at h00 h01 h02 h10 h11 h12 h20 h21 h22
  unfold rotate rotate_explicit
  rw [if_pos hOK, if_pos hOK]
  simp only [Except.ok.injEq, Prod.mk.injEq]
  refine ⟨⟨?_, ?_, ?_⟩, ⟨?_, ?_, ?_⟩, ?_, ?_, ?_⟩ <;>
    simp [rotSlot, explicitSlot, cubicTensor, Fin.sum_univ_three, CEM.la, CEM.mu, CEM.al]
  · linear_combination (-(m.C12 + 2 * m.C44)) *
      (A 0 0 * A 0 0 + A 0 1 * A 0 1 + A 0 2 * A 0 2 + 1) * h00
  · linear_combination (-(m.C12 + 2 * m.C44)) *
      (A 1 0 * A 1 0 + A 1 1 * A 1 1 + A 1 2 * A 1 2 + 1) * h11
  · linear_combination (-(m.C12 + 2 * m.C44)) *
      (A 2 0 * A 2 0 + A 2 1 * A 2 1 + A 2 2 * A 2 2 + 1) * h22
  · linear_combination
      -(m.C12 * (A 2 0 * A 2 0 + A 2 1 * A 2 1 + A 2 2 * A 2 2) * h11 +
        m.C12 * h22 +
        2 * m.C44 * (A 1 0 * A 2 0 + A 1 1 * A 2 1 + A 1 2 * A 2 2) * h12)
  · linear_combination
      -(m.C12 * (A 2 0 * A 2 0 + A 2 1 * A 2 1 + A 2 2 * A 2 2) * h00 +
        m.C12 * h22 +
        2 * m.C44 * (A 0 0 * A 2 0 + A 0 1 * A 2 1 + A 0 2 * A 2 2) * h02)
  · linear_combination
      -(m.C12 * (A 1 0 * A 1 0 + A 1 1 * A 1 1 + A 1 2 * A 1 2) * h00 +
        m.C12 * h11 +
        2 * m.C44 * (A 0 0 * A 1 0 + A 0 1 * A 1 1 + A 0 2 * A 1 2) * h01)
  · linear_combination
      -(m.C12 * (A 1 0 * A 2 0 + A 1 1 * A 2 1 + A 1 2 * A 2 2) * h12 +
        m.C44 * (A 2 0 * A 2 0 + A 2 1 * A 2 1 + A 2 2 * A 2 2) * h11 +
        m.C44 * h22 +
        m.C44 * (A 2 0 * A 1 0 + A 2 1 * A 1 1 + A 2 2 * A 1 2) * h12)
  · linear_combination
      -(m.C12 * (A 0 0 * A 2 0 + A 0 1 * A 2 1 + A 0 2 * A 2 2) * h02 +
        m.C44 * (A 2 0 * A 2 0 + A 2 1 * A 2 1 + A 2 2 * A 2 2) * h00 +
        m.C44 * h22 +
        m.C44 * (A 2 0 * A 0 0 + A 2 1 * A 0 1 + A 2 2 * A 0 2) * h02)
  · linear_combination
      -(m.C12 * (A 0 0 * A 1 0 + A 0 1 * A 1 1 + A 0 2 * A 1 2) * h01 +
        m.C44 * (A 1 0 * A 1 0 + A 1 1 * A 1 1 + A 1 2 * A 1 2) * h00 +
        m.C44 * h11 +
        m.C44 * (A 1 0 * A 0 0 + A 1 1 * A 0 1 + A 1 2 * A 0 2) * h01)

/-- Witness for C6 at the exactly orthonormal identity matrix and the
example constants (166, 65, 77). -/
theorem c6_rotate_explicit_agree_witness :
    rotate exampleCEM idMat3 = rotate_explicit exampleCEM idMat3 :=
  c6_rotate_explicit_agree exampleCEM idMat3 (by
    funext i j
    fin_cases i <;> fin_cases j <;>
      norm_num [matMulT, idMat3, Fin.sum_univ_three])

/-- C1: whenever the assembled crack frame passes the orthonormality check
of rotate, the CubicCrystalCrack constructor raises NotImplementedError,
because it calls CubicElasticModuli.compliance whose body only raises
NotImplementedError; this holds for every choice of elastic constants,
crack surface and front vectors and stress state (plane strain, plane
stress or anything else, since the failure precedes the stress-state
dispatch).  Moreover the constructor never succeeds for any input at all,
so no method (k1g, displacements, crack_tip_position, scale_displacements)
is reachable through a successfully constructed instance. -/
theorem c1_constructor_not_implemented (C11 C12 C44 : ℝ)
    (surface front : Fin 3 → ℝ) (stressState : String) :
    (rotationOK (crackFrame surface front) →
      cubicCrystalCrackNew C11 C12 C44 surface front stressState =
        .error "NotImplementedError") ∧
    ∀ u, cubicCrystalCrackNew C11 C12 C44 surface front stressState ≠ .ok u := by
  constructor
  · intro h
    unfold cubicCrystalCrackNew rotate
    rw [if_pos h]
    rfl
  · intro u
    unfold cubicCrystalCrackNew rotate
    by_cases h : rotationOK (crackFrame surface front)
    · rw [if_pos h]
      exact fun hh => Except.noConfusion hh
    · rw [if_neg h]
      exact fun hh => Except.noConfusion hh

/-- Witness for C1 at C11 = 166, C12 = 65, C44 = 77, crack surface (0,1,0),
crack front (0,0,1) and plane-strain loading: the assembled frame is the
identity, which passes the check, and construction raises
NotImplementedError. -/
theorem c1_constructor_not_implemented_witness :
    cubicCrystalCrackNew 166 65 77 e1v e2v "plane strain" =
      .error "NotImplementedError" := by
  apply (c1_constructor_not_implemented 166 65 77 e1v e2v "plane strain").1
  have hcross : cross3 e1v e2v = e0v := by
    funext i
    fin_cases i <;> simp [cross3, e0v, e1v, e2v]
  have hn0 : normalize3 e0v = e0v := by
    funext i
    simp [normalize3, e0v, Real.sqrt_one]
  have hn1 : normalize3 e1v = e1v := by
    funext i
    simp [normalize3, e1v, Real.sqrt_one]
  have hn2 : normalize3 e2v = e2v := by
    funext i
    simp [normalize3, e2v, Real.sqrt_one]
  have hdet : det3 (rows3 e0v e1v e2v) = 1 := by
    simp [det3, rows3, e0v, e1v, e2v]
  have hA : crackFrame e1v e2v = rows3 e0v e1v e2v := by
    simp only [crackFrame, hcross, hn0, hn1, hn2, hdet,
      show ¬((1 : ℝ) < 0) by norm_num, if_false]
  rw [hA]
  intro i j
  fin_cases i <;> fin_cases j <;>
    simp [matMulT, rows3, idMat3, e0v, e1v, e2v, Fin.sum_univ_three]

/-- C2 counterexample: the leastsq status 5 is not a success code, yet
fit_crack_stress_field still returns the fitted parameter vector instead of
failing, because the success flag it unpacks from leastsq is never
examined. -/
theorem c2_fit_nonsuccess_cex :
    (5 : ℤ) ∉ ([1, 2, 3, 4] : List ℤ) ∧
      fit_leastsq_tail [3, 4] 5 = .ok [3, 4] :=
  ⟨by decide, rfl⟩

/-- C2, amended: crack_tip_position raises "Could not find crack tip" for
every solver status outside 1, 2, 3, 4 and returns the solver position for
a status inside that set, while fit_crack_stress_field returns the fitted
parameters for every status, success or not, since it never examines the
status flag. -/
theorem c2_solver_status_handling (pos : ℚ × ℚ) (ier : ℤ) (fitted : List ℚ)
    (s : ℤ) :
    (ier ∉ ([1, 2, 3, 4] : List ℤ) →
      crack_tip_position (pos, ier) = .error "Could not find crack tip") ∧
    (ier ∈ ([1, 2, 3, 4] : List ℤ) → crack_tip_position (pos, ier) = .ok pos) ∧
    fit_leastsq_tail fitted s = .ok fitted := by
  obtain ⟨x0, y0⟩ := pos
  refine ⟨fun h => ?_, fun h => ?_, rfl⟩
  · simp [crack_tip_position, h]
  · simp [crack_tip_position, h]

/-- Witness for C2: status 5 raises, status 1 returns the position, and the
fit tail returns the parameters for status 0. -/
theorem c2_solver_status_handling_witness :
    crack_tip_position ((1, 2), 5) = .error "Could not find crack tip" ∧
    crack_tip_position ((1, 2), 1) = .ok (1, 2) ∧
    fit_leastsq_tail [3] 0 = .ok [3] :=
  ⟨(c2_solver_status_handling (1, 2) 5 [3] 0).1 (by decide),
   (c2_solver_status_handling (1, 2) 1 [3] 0).2.1 (by decide),
   (c2_solver_status_handling (1, 2) 1 [3] 0).2.2⟩

/-- C3 counterexample: an atom at exactly distance r_min from the previous
tip estimate (here the atom at (3,4) with tip (0,0) and
r_range = (5, 10)) satisfies r_min ≤ r < r_max and so is claimed to
contribute to the fit, but the mask (r > rmin) & (r < rmax) of the code
excludes it. -/
theorem c3_mask_boundary_cex :
    fit_r (fun _ => 3) (fun _ => 4) 0 0 0 = 5 ∧
    (5 : ℝ) ≤ fit_r (fun _ => 3) (fun _ => 4) 0 0 0 ∧
    fit_r (fun _ => 3) (fun _ => 4) 0 0 0 < 10 ∧
    ¬ fit_mask (some (5, 10)) (fit_r (fun _ => 3) (fun _ => 4) 0 0) 0 := by
  have h5 : fit_r (fun _ => 3) (fun _ => 4) 0 0 0 = 5 := by
    unfold fit_r
    rw [show ((3 : ℝ) - 0) ^ 2 + ((4 : ℝ) - 0) ^ 2 = 5 ^ 2 by norm_num]
    exact Real.sqrt_sq (by norm_num)
  refine ⟨h5, by simp [h5], by simp [h5]; norm_num, ?_⟩
  simp [fit_mask, h5]

/-- C3, amended: with r_range = (rmin, rmax) the atoms contributing to the
fit residual are exactly those with rmin < r < rmax, both bounds strict, so
an atom exactly at r = rmin or r = rmax is excluded: for non-negative
bounds, mask membership is equivalent to the squared distance from the tip
lying strictly between rmin^2 and rmax^2. -/
theorem c3_mask_strict_annulus (x y : Nat → ℝ) (x0 y0 rmin rmax : ℝ)
    (hmin : 0 ≤ rmin) (hmax : 0 ≤ rmax) (i : Nat) :
    fit_mask (some (rmin, rmax)) (fit_r x y x0 y0) i ↔
      rmin ^ 2 < (x i - x0) ^ 2 + (y i - y0) ^ 2 ∧
      (x i - x0) ^ 2 + (y i - y0) ^ 2 < rmax ^ 2 := by
  show rmin < fit_r x y x0 y0 i ∧ fit_r x y x0 y0 i < rmax ↔ _
  unfold fit_r
  rw [Real.lt_sqrt hmin, Real.sqrt_lt (by positivity) hmax]

/-- Witness for C3 at an atom at (1,1), tip (0,0) and annulus (1,2): the
mask test is equivalent to 1 < 2 < 4 on the squared distance. -/
theorem c3_mask_strict_annulus_witness :
    fit_mask (some (1, 2)) (fit_r (fun _ => 1) (fun _ => 1) 0 0) 0 ↔
      (1 : ℝ) ^ 2 < ((1 : ℝ) - 0) ^ 2 + ((1 : ℝ) - 0) ^ 2 ∧
      ((1 : ℝ) - 0) ^ 2 + ((1 : ℝ) - 0) ^ 2 < 2 ^ 2 :=
  c3_mask_strict_annulus (fun _ => 1) (fun _ => 1) 0 0 1 2
    (by norm_num) (by norm_num) 0

/-- C8: rescaling positions from stress intensity factor old_k to new_k and
back returns the original positions exactly, for any nonzero factors. -/
theorem c8_scale_displacements_roundtrip (x y refx refy : Nat → ℚ)
    (oldK newK : ℚ) (h1 : oldK ≠ 0) (h2 : newK ≠ 0) :
    scale_displacements (scale_displacements x y refx refy oldK newK).1
      (scale_displacements x y refx refy oldK newK).2 refx refy newK oldK =
      (x, y) := by
  unfold scale_displacements
  refine Prod.ext ?_ ?_ <;> (funext i; field_simp; ring)

/-- Witness for C8 with constant arrays and factors 2 and 5. -/
theorem c8_scale_displacements_roundtrip_witness :
    scale_displacements
      (scale_displacements (fun _ => 3) (fun _ => 7) (fun _ => 1) (fun _ => 2) 2 5).1
      (scale_displacements (fun _ => 3) (fun _ => 7) (fun _ => 1) (fun _ => 2) 2 5).2
      (fun _ => 1) (fun _ => 2) 5 2 = (fun _ => 3, fun _ => 7) :=
  c8_scale_displacements_roundtrip (fun _ => 3) (fun _ => 7) (fun _ => 1)
    (fun _ => 2) 2 5 (by norm_num) (by norm_num)

/-- C9: on the thin strip with OrigHeight 10, YoungsModulus 4, Poisson
number 0 and y positions 0 and 11, the chain computes
strain = height/orig_height - 1 = 1/10 and
G = (1/2) E/(1 - nu^2) strain^2 orig_height = 1/5 as the claim states, but
get_stress_intensity_factor does not return K = sqrt(G E/(1 - nu^2)):
line 657 evaluates the undefined bare name sqrt (only the module math is
imported) and Python raises NameError, so the K formula of the claim is
unreachable -- the code contradicts the documented intent of returning the
stress intensity factor. -/
theorem c9_strain_chain_nameerror :
    get_strain ⟨10, 4, 0, [0, 11]⟩ = 1 / 10 ∧
    get_energy_release_rate ⟨10, 4, 0, [0, 11]⟩ = 1 / 5 ∧
    strain_to_G (1 / 10) 4 0 10 = 1 / 5 ∧
    get_stress_intensity_factor ⟨10, 4, 0, [0, 11]⟩ =
      .error "NameError: name sqrt is not defined" := by
  refine ⟨?_, ?_, ?_, rfl⟩ <;>
    norm_num [get_strain, get_energy_release_rate, strain_to_G, arr_max, arr_min]

/-- C10: when a per-atom stress array sigma is supplied and avg_sigma is
None, the caller array is mutated in place: the out-of-plane components
(2,2), (0,2), (2,0), (1,2), (2,1) of every atom are zeroed while the
in-plane components (0,0), (1,1), (0,1), (1,0) are unchanged, and the local
working array is that same mutated array.  When avg_sigma is supplied, the
caller sigma array is left untouched and avg_sigma is overwritten in place
with the exponential average w avg + (1 - w) sigma, where w stands for
exp(-avg_decay); only the local copy of it is zeroed. -/
theorem c10_fit_sigma_inplace (w : ℚ) (s a0 cs : StressArr) (i : Nat) :
    (∃ sz, (fit_sigma_prep w (some s) none cs).1 = some sz ∧
      (fit_sigma_prep w (some s) none cs).2.2 = sz ∧
      sz i 2 2 = 0 ∧ sz i 0 2 = 0 ∧ sz i 2 0 = 0 ∧ sz i 1 2 = 0 ∧ sz i 2 1 = 0 ∧
      sz i 0 0 = s i 0 0 ∧ sz i 1 1 = s i 1 1 ∧ sz i 0 1 = s i 0 1 ∧
      sz i 1 0 = s i 1 0) ∧
    (fit_sigma_prep w (some s) (some a0) cs).1 = some s ∧
    (fit_sigma_prep w (some s) (some a0) cs).2.1 =
      some (fun j a b => w * a0 j a b + (1 - w) * s j a b) := by
  refine ⟨⟨zero_out_of_plane s, rfl, rfl, ?_, ?_, ?_, ?_, ?_, ?_, ?_, ?_, ?_⟩,
    rfl, rfl⟩ <;> simp [zero_out_of_plane]

end Matscipy
